import Mathlib

/-!
# The JNI dispatch bridge of `jni/jni.c`

`jni.c` defines twenty-six C functions `_jni_X`.  Each one dereferences the
handle it gets as first argument (`(*vm)` or `(*env)`), selects the function
pointer `X` of the table found there and calls it.

The embedding:

* pointers, handles and reference tokens are addresses (`Ptr`, a natural
  number, `NULL = 0`); `jint` and `jsize` are integers, `jboolean` a natural
  number.  No function of `jni.c` does arithmetic on any of them;
* the runtime is an explicit state `σ`; a slot of a dispatch table is a
  function from its arguments and the state to its result and the new state;
* dereferencing a handle is `Memory.loadVM` / `Memory.loadEnv`, which reads the
  table a handle points to in the current state, or `none` when the handle
  points to no table (the C code has no defined behaviour there);
* every `_jni_X` is a Lean function of the same name returning
  `Option (result × σ)` (`Option σ` for the `void` ones).
-/

namespace JNIBridge

/-! ## Values -/

/-- An address: a pointer, a handle or an opaque reference token. -/
abbrev Ptr := Nat

/-- The C null pointer. -/
def NULL : Ptr := 0

abbrev jint := Int
abbrev jsize := Int
abbrev jboolean := Nat
abbrev jobject := Ptr
abbrev jclass := Ptr
abbrev jstring := Ptr
abbrev jthrowable := Ptr
abbrev jmethodID := Ptr
abbrev jarray := Ptr
abbrev jbyteArray := Ptr

/-! ## Dispatch tables -/

/-- Modelled from the spec: the invocation table type behind a `JavaVM *`,
declared in `<jni.h>`, which is not among the sources.  One field per slot
that `jni.c` calls, with the argument list `jni.c` passes. -/
structure JNIInvokeInterface (σ : Type) where
  AttachCurrentThread : Ptr → Ptr → Ptr → σ → jint × σ
  DetachCurrentThread : Ptr → σ → jint × σ
  GetEnv : Ptr → Ptr → jint → σ → jint × σ

/-- Modelled from the spec: the native-interface table type behind a
`JNIEnv *`, declared in `<jni.h>`, which is not among the sources.  One field
per slot that `jni.c` calls, with the argument list `jni.c` passes, and the
slot `CallStaticBooleanMethodA` (the static equivalent of the boolean
invocation variant), which `jni.c` never calls. -/
structure JNINativeInterface (σ : Type) where
  FindClass : Ptr → Ptr → σ → jclass × σ
  ExceptionOccurred : Ptr → σ → jthrowable × σ
  ExceptionClear : Ptr → σ → σ
  GetObjectClass : Ptr → jobject → σ → jclass × σ
  GetMethodID : Ptr → jclass → Ptr → Ptr → σ → jmethodID × σ
  GetStaticMethodID : Ptr → jclass → Ptr → Ptr → σ → jmethodID × σ
  GetStringLength : Ptr → jstring → σ → jsize × σ
  GetStringChars : Ptr → jstring → Ptr → σ → Ptr × σ
  NewString : Ptr → Ptr → jsize → σ → jstring × σ
  IsSameObject : Ptr → jobject → jobject → σ → jboolean × σ
  NewGlobalRef : Ptr → jobject → σ → jobject × σ
  DeleteGlobalRef : Ptr → jobject → σ → σ
  CallStaticVoidMethodA : Ptr → jclass → jmethodID → Ptr → σ → σ
  CallStaticIntMethodA : Ptr → jclass → jmethodID → Ptr → σ → jint × σ
  CallStaticBooleanMethodA : Ptr → jclass → jmethodID → Ptr → σ → jboolean × σ
  CallStaticObjectMethodA : Ptr → jclass → jmethodID → Ptr → σ → jobject × σ
  CallObjectMethodA : Ptr → jobject → jmethodID → Ptr → σ → jobject × σ
  CallBooleanMethodA : Ptr → jobject → jmethodID → Ptr → σ → jboolean × σ
  CallIntMethodA : Ptr → jobject → jmethodID → Ptr → σ → jint × σ
  CallVoidMethodA : Ptr → jobject → jmethodID → Ptr → σ → σ
  NewByteArray : Ptr → jsize → σ → jbyteArray × σ
  GetByteArrayElements : Ptr → jbyteArray → Ptr → σ → Ptr × σ
  ReleaseByteArrayElements : Ptr → jbyteArray → Ptr → jint → σ → σ
  GetArrayLength : Ptr → jarray → σ → jsize × σ

/-- What dereferencing a handle yields: `loadVM s vm` is the table `*vm` in
state `s`, `loadEnv s env` the table `*env`; `none` when the handle does not
point to a table. -/
structure Memory (σ : Type) where
  loadVM : σ → Ptr → Option (JNIInvokeInterface σ)
  loadEnv : σ → Ptr → Option (JNINativeInterface σ)

/-! ## The bridge functions of `jni.c`, in source order -/

section Bridge

variable {σ : Type}

def _jni_AttachCurrentThread (m : Memory σ) (vm : Ptr) (p_env : Ptr) (thr_args : Ptr)
    (s : σ) : Option (jint × σ) :=
  (m.loadVM s vm).map fun fns => fns.AttachCurrentThread vm p_env thr_args s

def _jni_DetachCurrentThread (m : Memory σ) (vm : Ptr) (s : σ) : Option (jint × σ) :=
  (m.loadVM s vm).map fun fns => fns.DetachCurrentThread vm s

def _jni_GetEnv (m : Memory σ) (vm : Ptr) (env : Ptr) (version : jint)
    (s : σ) : Option (jint × σ) :=
  (m.loadVM s vm).map fun fns => fns.GetEnv vm env version s

def _jni_FindClass (m : Memory σ) (env : Ptr) (name : Ptr) (s : σ) : Option (jclass × σ) :=
  (m.loadEnv s env).map fun fns => fns.FindClass env name s

def _jni_ExceptionOccurred (m : Memory σ) (env : Ptr) (s : σ) : Option (jthrowable × σ) :=
  (m.loadEnv s env).map fun fns => fns.ExceptionOccurred env s

def _jni_ExceptionClear (m : Memory σ) (env : Ptr) (s : σ) : Option σ :=
  (m.loadEnv s env).map fun fns => fns.ExceptionClear env s

def _jni_GetObjectClass (m : Memory σ) (env : Ptr) (obj : jobject)
    (s : σ) : Option (jclass × σ) :=
  (m.loadEnv s env).map fun fns => fns.GetObjectClass env obj s

def _jni_GetMethodID (m : Memory σ) (env : Ptr) (clazz : jclass) (name : Ptr) (sig : Ptr)
    (s : σ) : Option (jmethodID × σ) :=
  (m.loadEnv s env).map fun fns => fns.GetMethodID env clazz name sig s

def _jni_GetStaticMethodID (m : Memory σ) (env : Ptr) (clazz : jclass) (name : Ptr)
    (sig : Ptr) (s : σ) : Option (jmethodID × σ) :=
  (m.loadEnv s env).map fun fns => fns.GetStaticMethodID env clazz name sig s

def _jni_GetStringLength (m : Memory σ) (env : Ptr) (str : jstring)
    (s : σ) : Option (jsize × σ) :=
  (m.loadEnv s env).map fun fns => fns.GetStringLength env str s

def _jni_GetStringChars (m : Memory σ) (env : Ptr) (str : jstring)
    (s : σ) : Option (Ptr × σ) :=
  (m.loadEnv s env).map fun fns => fns.GetStringChars env str NULL s

def _jni_NewString (m : Memory σ) (env : Ptr) (unicodeChars : Ptr) (len : jsize)
    (s : σ) : Option (jstring × σ) :=
  (m.loadEnv s env).map fun fns => fns.NewString env unicodeChars len s

def _jni_IsSameObject (m : Memory σ) (env : Ptr) (ref1 : jobject) (ref2 : jobject)
    (s : σ) : Option (jboolean × σ) :=
  (m.loadEnv s env).map fun fns => fns.IsSameObject env ref1 ref2 s

def _jni_NewGlobalRef (m : Memory σ) (env : Ptr) (obj : jobject)
    (s : σ) : Option (jobject × σ) :=
  (m.loadEnv s env).map fun fns => fns.NewGlobalRef env obj s

def _jni_DeleteGlobalRef (m : Memory σ) (env : Ptr) (obj : jobject) (s : σ) : Option σ :=
  (m.loadEnv s env).map fun fns => fns.DeleteGlobalRef env obj s

def _jni_CallStaticVoidMethodA (m : Memory σ) (env : Ptr) (cls : jclass)
    (method : jmethodID) (args : Ptr) (s : σ) : Option σ :=
  (m.loadEnv s env).map fun fns => fns.CallStaticVoidMethodA env cls method args s

def _jni_CallStaticIntMethodA (m : Memory σ) (env : Ptr) (cls : jclass)
    (method : jmethodID) (args : Ptr) (s : σ) : Option (jint × σ) :=
  (m.loadEnv s env).map fun fns => fns.CallStaticIntMethodA env cls method args s

def _jni_CallStaticObjectMethodA (m : Memory σ) (env : Ptr) (cls : jclass)
    (method : jmethodID) (args : Ptr) (s : σ) : Option (jobject × σ) :=
  (m.loadEnv s env).map fun fns => fns.CallStaticObjectMethodA env cls method args s

def _jni_CallObjectMethodA (m : Memory σ) (env : Ptr) (obj : jobject)
    (method : jmethodID) (args : Ptr) (s : σ) : Option (jobject × σ) :=
  (m.loadEnv s env).map fun fns => fns.CallObjectMethodA env obj method args s

def _jni_CallBooleanMethodA (m : Memory σ) (env : Ptr) (obj : jobject)
    (method : jmethodID) (args : Ptr) (s : σ) : Option (jboolean × σ) :=
  (m.loadEnv s env).map fun fns => fns.CallBooleanMethodA env obj method args s

def _jni_CallIntMethodA (m : Memory σ) (env : Ptr) (obj : jobject)
    (method : jmethodID) (args : Ptr) (s : σ) : Option (jint × σ) :=
  (m.loadEnv s env).map fun fns => fns.CallIntMethodA env obj method args s

def _jni_CallVoidMethodA (m : Memory σ) (env : Ptr) (obj : jobject)
    (method : jmethodID) (args : Ptr) (s : σ) : Option σ :=
  (m.loadEnv s env).map fun fns => fns.CallVoidMethodA env obj method args s

def _jni_NewByteArray (m : Memory σ) (env : Ptr) (length : jsize)
    (s : σ) : Option (jbyteArray × σ) :=
  (m.loadEnv s env).map fun fns => fns.NewByteArray env length s

def _jni_GetByteArrayElements (m : Memory σ) (env : Ptr) (arr : jbyteArray)
    (s : σ) : Option (Ptr × σ) :=
  (m.loadEnv s env).map fun fns => fns.GetByteArrayElements env arr NULL s

def _jni_ReleaseByteArrayElements (m : Memory σ) (env : Ptr) (arr : jbyteArray)
    (elems : Ptr) (mode : jint) (s : σ) : Option σ :=
  (m.loadEnv s env).map fun fns => fns.ReleaseByteArrayElements env arr elems mode s

def _jni_GetArrayLength (m : Memory σ) (env : Ptr) (arr : jarray)
    (s : σ) : Option (jsize × σ) :=
  (m.loadEnv s env).map fun fns => fns.GetArrayLength env arr s

end Bridge

/-! ## Calls as data

To speak about all twenty-six entry points at once, and about what a dispatch
table sees, calls are also given as data: `BridgeCall` is a call of a bridge
function with its arguments, `Call` a call of a table slot with its arguments.
-/

/-- A C value crossing the bridge: a pointer-like value, a `jint`/`jsize`, a
`jboolean`, or nothing (the result of a `void` function). -/
inductive Val where
  | ptr (p : Ptr)
  | int (i : Int)
  | bool (b : Nat)
  | unit
  deriving DecidableEq

/-- The names of the slots of the two dispatch tables. -/
inductive Slot where
  | AttachCurrentThread
  | DetachCurrentThread
  | GetEnv
  | FindClass
  | ExceptionOccurred
  | ExceptionClear
  | GetObjectClass
  | GetMethodID
  | GetStaticMethodID
  | GetStringLength
  | GetStringChars
  | NewString
  | IsSameObject
  | NewGlobalRef
  | DeleteGlobalRef
  | CallStaticVoidMethodA
  | CallStaticIntMethodA
  | CallStaticBooleanMethodA
  | CallStaticObjectMethodA
  | CallObjectMethodA
  | CallBooleanMethodA
  | CallIntMethodA
  | CallVoidMethodA
  | NewByteArray
  | GetByteArrayElements
  | ReleaseByteArrayElements
  | GetArrayLength
  deriving DecidableEq

/-- One call of a table slot: which slot, and the argument list it was given,
the handle first. -/
structure Call where
  slot : Slot
  args : List Val
  deriving DecidableEq

/-- One call of a function of `jni.c` with its C arguments, in source order. -/
inductive BridgeCall where
  | AttachCurrentThread (vm p_env thr_args : Ptr)
  | DetachCurrentThread (vm : Ptr)
  | GetEnv (vm env : Ptr) (version : jint)
  | FindClass (env name : Ptr)
  | ExceptionOccurred (env : Ptr)
  | ExceptionClear (env : Ptr)
  | GetObjectClass (env : Ptr) (obj : jobject)
  | GetMethodID (env : Ptr) (clazz : jclass) (name sig : Ptr)
  | GetStaticMethodID (env : Ptr) (clazz : jclass) (name sig : Ptr)
  | GetStringLength (env : Ptr) (str : jstring)
  | GetStringChars (env : Ptr) (str : jstring)
  | NewString (env unicodeChars : Ptr) (len : jsize)
  | IsSameObject (env : Ptr) (ref1 ref2 : jobject)
  | NewGlobalRef (env : Ptr) (obj : jobject)
  | DeleteGlobalRef (env : Ptr) (obj : jobject)
  | CallStaticVoidMethodA (env : Ptr) (cls : jclass) (method : jmethodID) (args : Ptr)
  | CallStaticIntMethodA (env : Ptr) (cls : jclass) (method : jmethodID) (args : Ptr)
  | CallStaticObjectMethodA (env : Ptr) (cls : jclass) (method : jmethodID) (args : Ptr)
  | CallObjectMethodA (env : Ptr) (obj : jobject) (method : jmethodID) (args : Ptr)
  | CallBooleanMethodA (env : Ptr) (obj : jobject) (method : jmethodID) (args : Ptr)
  | CallIntMethodA (env : Ptr) (obj : jobject) (method : jmethodID) (args : Ptr)
  | CallVoidMethodA (env : Ptr) (obj : jobject) (method : jmethodID) (args : Ptr)
  | NewByteArray (env : Ptr) (length : jsize)
  | GetByteArrayElements (env : Ptr) (arr : jbyteArray)
  | ReleaseByteArrayElements (env : Ptr) (arr : jbyteArray) (elems : Ptr) (mode : jint)
  | GetArrayLength (env : Ptr) (arr : jarray)
  deriving DecidableEq

section Run

variable {σ : Type}

/-- A pointer-like result as a `Val`. -/
def retPtr (r : Ptr × σ) : Val × σ := (.ptr r.1, r.2)

/-- A `jint` or `jsize` result as a `Val`. -/
def retInt (r : Int × σ) : Val × σ := (.int r.1, r.2)

/-- A `jboolean` result as a `Val`. -/
def retBool (r : jboolean × σ) : Val × σ := (.bool r.1, r.2)

/-- The result of a `void` function as a `Val`. -/
def retUnit (r : σ) : Val × σ := (.unit, r)

/-- Running a bridge call: the function of `jni.c` that the call names, applied
to the call's arguments. -/
def BridgeCall.run (m : Memory σ) : BridgeCall → σ → Option (Val × σ)
  | .AttachCurrentThread vm p_env thr_args, s =>
      (_jni_AttachCurrentThread m vm p_env thr_args s).map retInt
  | .DetachCurrentThread vm, s => (_jni_DetachCurrentThread m vm s).map retInt
  | .GetEnv vm env version, s => (_jni_GetEnv m vm env version s).map retInt
  | .FindClass env name, s => (_jni_FindClass m env name s).map retPtr
  | .ExceptionOccurred env, s => (_jni_ExceptionOccurred m env s).map retPtr
  | .ExceptionClear env, s => (_jni_ExceptionClear m env s).map retUnit
  | .GetObjectClass env obj, s => (_jni_GetObjectClass m env obj s).map retPtr
  | .GetMethodID env clazz name sig, s => (_jni_GetMethodID m env clazz name sig s).map retPtr
  | .GetStaticMethodID env clazz name sig, s =>
      (_jni_GetStaticMethodID m env clazz name sig s).map retPtr
  | .GetStringLength env str, s => (_jni_GetStringLength m env str s).map retInt
  | .GetStringChars env str, s => (_jni_GetStringChars m env str s).map retPtr
  | .NewString env unicodeChars len, s => (_jni_NewString m env unicodeChars len s).map retPtr
  | .IsSameObject env ref1 ref2, s => (_jni_IsSameObject m env ref1 ref2 s).map retBool
  | .NewGlobalRef env obj, s => (_jni_NewGlobalRef m env obj s).map retPtr
  | .DeleteGlobalRef env obj, s => (_jni_DeleteGlobalRef m env obj s).map retUnit
  | .CallStaticVoidMethodA env cls method args, s =>
      (_jni_CallStaticVoidMethodA m env cls method args s).map retUnit
  | .CallStaticIntMethodA env cls method args, s =>
      (_jni_CallStaticIntMethodA m env cls method args s).map retInt
  | .CallStaticObjectMethodA env cls method args, s =>
      (_jni_CallStaticObjectMethodA m env cls method args s).map retPtr
  | .CallObjectMethodA env obj method args, s =>
      (_jni_CallObjectMethodA m env obj method args s).map retPtr
  | .CallBooleanMethodA env obj method args, s =>
      (_jni_CallBooleanMethodA m env obj method args s).map retBool
  | .CallIntMethodA env obj method args, s =>
      (_jni_CallIntMethodA m env obj method args s).map retInt
  | .CallVoidMethodA env obj method args, s =>
      (_jni_CallVoidMethodA m env obj method args s).map retUnit
  | .NewByteArray env length, s => (_jni_NewByteArray m env length s).map retPtr
  | .GetByteArrayElements env arr, s => (_jni_GetByteArrayElements m env arr s).map retPtr
  | .ReleaseByteArrayElements env arr elems mode, s =>
      (_jni_ReleaseByteArrayElements m env arr elems mode s).map retUnit
  | .GetArrayLength env arr, s => (_jni_GetArrayLength m env arr s).map retInt

/-- The slot that has the same name as the bridge function called. -/
def BridgeCall.name : BridgeCall → Slot
  | .AttachCurrentThread .. => .AttachCurrentThread
  | .DetachCurrentThread .. => .DetachCurrentThread
  | .GetEnv .. => .GetEnv
  | .FindClass .. => .FindClass
  | .ExceptionOccurred .. => .ExceptionOccurred
  | .ExceptionClear .. => .ExceptionClear
  | .GetObjectClass .. => .GetObjectClass
  | .GetMethodID .. => .GetMethodID
  | .GetStaticMethodID .. => .GetStaticMethodID
  | .GetStringLength .. => .GetStringLength
  | .GetStringChars .. => .GetStringChars
  | .NewString .. => .NewString
  | .IsSameObject .. => .IsSameObject
  | .NewGlobalRef .. => .NewGlobalRef
  | .DeleteGlobalRef .. => .DeleteGlobalRef
  | .CallStaticVoidMethodA .. => .CallStaticVoidMethodA
  | .CallStaticIntMethodA .. => .CallStaticIntMethodA
  | .CallStaticObjectMethodA .. => .CallStaticObjectMethodA
  | .CallObjectMethodA .. => .CallObjectMethodA
  | .CallBooleanMethodA .. => .CallBooleanMethodA
  | .CallIntMethodA .. => .CallIntMethodA
  | .CallVoidMethodA .. => .CallVoidMethodA
  | .NewByteArray .. => .NewByteArray
  | .GetByteArrayElements .. => .GetByteArrayElements
  | .ReleaseByteArrayElements .. => .ReleaseByteArrayElements
  | .GetArrayLength .. => .GetArrayLength

/-- The argument list a bridge call is made with: the parameters of the C
function, in order. -/
def BridgeCall.args : BridgeCall → List Val
  | .AttachCurrentThread vm p_env thr_args => [.ptr vm, .ptr p_env, .ptr thr_args]
  | .DetachCurrentThread vm => [.ptr vm]
  | .GetEnv vm env version => [.ptr vm, .ptr env, .int version]
  | .FindClass env name => [.ptr env, .ptr name]
  | .ExceptionOccurred env => [.ptr env]
  | .ExceptionClear env => [.ptr env]
  | .GetObjectClass env obj => [.ptr env, .ptr obj]
  | .GetMethodID env clazz name sig => [.ptr env, .ptr clazz, .ptr name, .ptr sig]
  | .GetStaticMethodID env clazz name sig => [.ptr env, .ptr clazz, .ptr name, .ptr sig]
  | .GetStringLength env str => [.ptr env, .ptr str]
  | .GetStringChars env str => [.ptr env, .ptr str]
  | .NewString env unicodeChars len => [.ptr env, .ptr unicodeChars, .int len]
  | .IsSameObject env ref1 ref2 => [.ptr env, .ptr ref1, .ptr ref2]
  | .NewGlobalRef env obj => [.ptr env, .ptr obj]
  | .DeleteGlobalRef env obj => [.ptr env, .ptr obj]
  | .CallStaticVoidMethodA env cls method args => [.ptr env, .ptr cls, .ptr method, .ptr args]
  | .CallStaticIntMethodA env cls method args => [.ptr env, .ptr cls, .ptr method, .ptr args]
  | .CallStaticObjectMethodA env cls method args =>
      [.ptr env, .ptr cls, .ptr method, .ptr args]
  | .CallObjectMethodA env obj method args => [.ptr env, .ptr obj, .ptr method, .ptr args]
  | .CallBooleanMethodA env obj method args => [.ptr env, .ptr obj, .ptr method, .ptr args]
  | .CallIntMethodA env obj method args => [.ptr env, .ptr obj, .ptr method, .ptr args]
  | .CallVoidMethodA env obj method args => [.ptr env, .ptr obj, .ptr method, .ptr args]
  | .NewByteArray env length => [.ptr env, .int length]
  | .GetByteArrayElements env arr => [.ptr env, .ptr arr]
  | .ReleaseByteArrayElements env arr elems mode =>
      [.ptr env, .ptr arr, .ptr elems, .int mode]
  | .GetArrayLength env arr => [.ptr env, .ptr arr]

/-- The handle of a bridge call: its first argument. -/
def BridgeCall.handle : BridgeCall → Ptr
  | .AttachCurrentThread vm _ _ => vm
  | .DetachCurrentThread vm => vm
  | .GetEnv vm _ _ => vm
  | .FindClass env _ => env
  | .ExceptionOccurred env => env
  | .ExceptionClear env => env
  | .GetObjectClass env _ => env
  | .GetMethodID env _ _ _ => env
  | .GetStaticMethodID env _ _ _ => env
  | .GetStringLength env _ => env
  | .GetStringChars env _ => env
  | .NewString env _ _ => env
  | .IsSameObject env _ _ => env
  | .NewGlobalRef env _ => env
  | .DeleteGlobalRef env _ => env
  | .CallStaticVoidMethodA env _ _ _ => env
  | .CallStaticIntMethodA env _ _ _ => env
  | .CallStaticObjectMethodA env _ _ _ => env
  | .CallObjectMethodA env _ _ _ => env
  | .CallBooleanMethodA env _ _ _ => env
  | .CallIntMethodA env _ _ _ => env
  | .CallVoidMethodA env _ _ _ => env
  | .NewByteArray env _ => env
  | .GetByteArrayElements env _ => env
  | .ReleaseByteArrayElements env _ _ _ => env
  | .GetArrayLength env _ => env

/-- Whether the first parameter of the bridge function is a `JavaVM *` (the
three thread-lifecycle functions) rather than a `JNIEnv *`. -/
def BridgeCall.onVM : BridgeCall → Bool
  | .AttachCurrentThread .. => true
  | .DetachCurrentThread .. => true
  | .GetEnv .. => true
  | _ => false

/-- The handle of the call points to a dispatch table of its kind in state `s`. -/
def BridgeCall.Reaches (m : Memory σ) (c : BridgeCall) (s : σ) : Prop :=
  (if c.onVM then (m.loadVM s c.handle).isSome else (m.loadEnv s c.handle).isSome) = true

end Run

/-! ## A recording dispatch table

`traced` wraps a dispatch table so that every slot, when called, appends a
record of the call (its own name and the arguments it received) to a log kept
beside the runtime state, and otherwise behaves as the wrapped slot.  Running
the bridge on a traced table shows which slots it calls, how often, and with
which arguments.
-/

section Traced

variable {σ : Type} {α : Type}

/-- The result `r` of a slot, with the call record `c` appended to the log. -/
def logged (c : Call) (log : List Call) (r : α × σ) : α × (σ × List Call) :=
  (r.1, (r.2, log ++ [c]))

/-- The new state `r` of a `void` slot, with the call record `c` appended to the log. -/
def loggedVoid (c : Call) (log : List Call) (r : σ) : σ × List Call :=
  (r, log ++ [c])

/-- The invocation table `f`, recording every call made to it. -/
def JNIInvokeInterface.traced (f : JNIInvokeInterface σ) :
    JNIInvokeInterface (σ × List Call) where
  AttachCurrentThread vm p_env thr_args t :=
    logged ⟨.AttachCurrentThread, [.ptr vm, .ptr p_env, .ptr thr_args]⟩ t.2
      (f.AttachCurrentThread vm p_env thr_args t.1)
  DetachCurrentThread vm t :=
    logged ⟨.DetachCurrentThread, [.ptr vm]⟩ t.2 (f.DetachCurrentThread vm t.1)
  GetEnv vm env version t :=
    logged ⟨.GetEnv, [.ptr vm, .ptr env, .int version]⟩ t.2 (f.GetEnv vm env version t.1)

/-- The native-interface table `f`, recording every call made to it. -/
def JNINativeInterface.traced (f : JNINativeInterface σ) :
    JNINativeInterface (σ × List Call) where
  FindClass env name t :=
    logged ⟨.FindClass, [.ptr env, .ptr name]⟩ t.2 (f.FindClass env name t.1)
  ExceptionOccurred env t :=
    logged ⟨.ExceptionOccurred, [.ptr env]⟩ t.2 (f.ExceptionOccurred env t.1)
  ExceptionClear env t :=
    loggedVoid ⟨.ExceptionClear, [.ptr env]⟩ t.2 (f.ExceptionClear env t.1)
  GetObjectClass env obj t :=
    logged ⟨.GetObjectClass, [.ptr env, .ptr obj]⟩ t.2 (f.GetObjectClass env obj t.1)
  GetMethodID env clazz name sig t :=
    logged ⟨.GetMethodID, [.ptr env, .ptr clazz, .ptr name, .ptr sig]⟩ t.2
      (f.GetMethodID env clazz name sig t.1)
  GetStaticMethodID env clazz name sig t :=
    logged ⟨.GetStaticMethodID, [.ptr env, .ptr clazz, .ptr name, .ptr sig]⟩ t.2
      (f.GetStaticMethodID env clazz name sig t.1)
  GetStringLength env str t :=
    logged ⟨.GetStringLength, [.ptr env, .ptr str]⟩ t.2 (f.GetStringLength env str t.1)
  GetStringChars env str isCopy t :=
    logged ⟨.GetStringChars, [.ptr env, .ptr str, .ptr isCopy]⟩ t.2
      (f.GetStringChars env str isCopy t.1)
  NewString env unicodeChars len t :=
    logged ⟨.NewString, [.ptr env, .ptr unicodeChars, .int len]⟩ t.2
      (f.NewString env unicodeChars len t.1)
  IsSameObject env ref1 ref2 t :=
    logged ⟨.IsSameObject, [.ptr env, .ptr ref1, .ptr ref2]⟩ t.2
      (f.IsSameObject env ref1 ref2 t.1)
  NewGlobalRef env obj t :=
    logged ⟨.NewGlobalRef, [.ptr env, .ptr obj]⟩ t.2 (f.NewGlobalRef env obj t.1)
  DeleteGlobalRef env obj t :=
    loggedVoid ⟨.DeleteGlobalRef, [.ptr env, .ptr obj]⟩ t.2 (f.DeleteGlobalRef env obj t.1)
  CallStaticVoidMethodA env cls method args t :=
    loggedVoid ⟨.CallStaticVoidMethodA, [.ptr env, .ptr cls, .ptr method, .ptr args]⟩ t.2
      (f.CallStaticVoidMethodA env cls method args t.1)
  CallStaticIntMethodA env cls method args t :=
    logged ⟨.CallStaticIntMethodA, [.ptr env, .ptr cls, .ptr method, .ptr args]⟩ t.2
      (f.CallStaticIntMethodA env cls method args t.1)
  CallStaticBooleanMethodA env cls method args t :=
    logged ⟨.CallStaticBooleanMethodA, [.ptr env, .ptr cls, .ptr method, .ptr args]⟩ t.2
      (f.CallStaticBooleanMethodA env cls method args t.1)
  CallStaticObjectMethodA env cls method args t :=
    logged ⟨.CallStaticObjectMethodA, [.ptr env, .ptr cls, .ptr method, .ptr args]⟩ t.2
      (f.CallStaticObjectMethodA env cls method args t.1)
  CallObjectMethodA env obj method args t :=
    logged ⟨.CallObjectMethodA, [.ptr env, .ptr obj, .ptr method, .ptr args]⟩ t.2
      (f.CallObjectMethodA env obj method args t.1)
  CallBooleanMethodA env obj method args t :=
    logged ⟨.CallBooleanMethodA, [.ptr env, .ptr obj, .ptr method, .ptr args]⟩ t.2
      (f.CallBooleanMethodA env obj method args t.1)
  CallIntMethodA env obj method args t :=
    logged ⟨.CallIntMethodA, [.ptr env, .ptr obj, .ptr method, .ptr args]⟩ t.2
      (f.CallIntMethodA env obj method args t.1)
  CallVoidMethodA env obj method args t :=
    loggedVoid ⟨.CallVoidMethodA, [.ptr env, .ptr obj, .ptr method, .ptr args]⟩ t.2
      (f.CallVoidMethodA env obj method args t.1)
  NewByteArray env length t :=
    logged ⟨.NewByteArray, [.ptr env, .int length]⟩ t.2 (f.NewByteArray env length t.1)
  GetByteArrayElements env arr isCopy t :=
    logged ⟨.GetByteArrayElements, [.ptr env, .ptr arr, .ptr isCopy]⟩ t.2
      (f.GetByteArrayElements env arr isCopy t.1)
  ReleaseByteArrayElements env arr elems mode t :=
    loggedVoid ⟨.ReleaseByteArrayElements, [.ptr env, .ptr arr, .ptr elems, .int mode]⟩ t.2
      (f.ReleaseByteArrayElements env arr elems mode t.1)
  GetArrayLength env arr t :=
    logged ⟨.GetArrayLength, [.ptr env, .ptr arr]⟩ t.2 (f.GetArrayLength env arr t.1)

/-- The memory `m` with every table replaced by its recording version. -/
def Memory.traced (m : Memory σ) : Memory (σ × List Call) where
  loadVM t p := (m.loadVM t.1 p).map JNIInvokeInterface.traced
  loadEnv t p := (m.loadEnv t.1 p).map JNINativeInterface.traced

end Traced

/-! ## Direct slot calls

`invoke` is a caller that does not go through `jni.c`: it dereferences the
handle (the first argument of the call) and calls the named slot with the
given arguments.  An argument list that does not fit the slot is no call.
-/

section Invoke

variable {σ : Type}

/-- Calling slot `c.slot` of the table reached through the first argument,
with the arguments `c.args`. -/
def invoke (m : Memory σ) (c : Call) (s : σ) : Option (Val × σ) :=
  match c.slot, c.args with
  | .AttachCurrentThread, [.ptr vm, .ptr p_env, .ptr thr_args] =>
      (m.loadVM s vm).map fun f => retInt (f.AttachCurrentThread vm p_env thr_args s)
  | .DetachCurrentThread, [.ptr vm] =>
      (m.loadVM s vm).map fun f => retInt (f.DetachCurrentThread vm s)
  | .GetEnv, [.ptr vm, .ptr env, .int version] =>
      (m.loadVM s vm).map fun f => retInt (f.GetEnv vm env version s)
  | .FindClass, [.ptr env, .ptr name] =>
      (m.loadEnv s env).map fun f => retPtr (f.FindClass env name s)
  | .ExceptionOccurred, [.ptr env] =>
      (m.loadEnv s env).map fun f => retPtr (f.ExceptionOccurred env s)
  | .ExceptionClear, [.ptr env] =>
      (m.loadEnv s env).map fun f => retUnit (f.ExceptionClear env s)
  | .GetObjectClass, [.ptr env, .ptr obj] =>
      (m.loadEnv s env).map fun f => retPtr (f.GetObjectClass env obj s)
  | .GetMethodID, [.ptr env, .ptr clazz, .ptr name, .ptr sig] =>
      (m.loadEnv s env).map fun f => retPtr (f.GetMethodID env clazz name sig s)
  | .GetStaticMethodID, [.ptr env, .ptr clazz, .ptr name, .ptr sig] =>
      (m.loadEnv s env).map fun f => retPtr (f.GetStaticMethodID env clazz name sig s)
  | .GetStringLength, [.ptr env, .ptr str] =>
      (m.loadEnv s env).map fun f => retInt (f.GetStringLength env str s)
  | .GetStringChars, [.ptr env, .ptr str, .ptr isCopy] =>
      (m.loadEnv s env).map fun f => retPtr (f.GetStringChars env str isCopy s)
  | .NewString, [.ptr env, .ptr unicodeChars, .int len] =>
      (m.loadEnv s env).map fun f => retPtr (f.NewString env unicodeChars len s)
  | .IsSameObject, [.ptr env, .ptr ref1, .ptr ref2] =>
      (m.loadEnv s env).map fun f => retBool (f.IsSameObject env ref1 ref2 s)
  | .NewGlobalRef, [.ptr env, .ptr obj] =>
      (m.loadEnv s env).map fun f => retPtr (f.NewGlobalRef env obj s)
  | .DeleteGlobalRef, [.ptr env, .ptr obj] =>
      (m.loadEnv s env).map fun f => retUnit (f.DeleteGlobalRef env obj s)
  | .CallStaticVoidMethodA, [.ptr env, .ptr cls, .ptr method, .ptr args] =>
      (m.loadEnv s env).map fun f => retUnit (f.CallStaticVoidMethodA env cls method args s)
  | .CallStaticIntMethodA, [.ptr env, .ptr cls, .ptr method, .ptr args] =>
      (m.loadEnv s env).map fun f => retInt (f.CallStaticIntMethodA env cls method args s)
  | .CallStaticBooleanMethodA, [.ptr env, .ptr cls, .ptr method, .ptr args] =>
      (m.loadEnv s env).map fun f => retBool (f.CallStaticBooleanMethodA env cls method args s)
  | .CallStaticObjectMethodA, [.ptr env, .ptr cls, .ptr method, .ptr args] =>
      (m.loadEnv s env).map fun f => retPtr (f.CallStaticObjectMethodA env cls method args s)
  | .CallObjectMethodA, [.ptr env, .ptr obj, .ptr method, .ptr args] =>
      (m.loadEnv s env).map fun f => retPtr (f.CallObjectMethodA env obj method args s)
  | .CallBooleanMethodA, [.ptr env, .ptr obj, .ptr method, .ptr args] =>
      (m.loadEnv s env).map fun f => retBool (f.CallBooleanMethodA env obj method args s)
  | .CallIntMethodA, [.ptr env, .ptr obj, .ptr method, .ptr args] =>
      (m.loadEnv s env).map fun f => retInt (f.CallIntMethodA env obj method args s)
  | .CallVoidMethodA, [.ptr env, .ptr obj, .ptr method, .ptr args] =>
      (m.loadEnv s env).map fun f => retUnit (f.CallVoidMethodA env obj method args s)
  | .NewByteArray, [.ptr env, .int length] =>
      (m.loadEnv s env).map fun f => retPtr (f.NewByteArray env length s)
  | .GetByteArrayElements, [.ptr env, .ptr arr, .ptr isCopy] =>
      (m.loadEnv s env).map fun f => retPtr (f.GetByteArrayElements env arr isCopy s)
  | .ReleaseByteArrayElements, [.ptr env, .ptr arr, .ptr elems, .int mode] =>
      (m.loadEnv s env).map fun f =>
        retUnit (f.ReleaseByteArrayElements env arr elems mode s)
  | .GetArrayLength, [.ptr env, .ptr arr] =>
      (m.loadEnv s env).map fun f => retInt (f.GetArrayLength env arr s)
  | _, _ => none

end Invoke

/-! ## The slot call in the body of each bridge function -/

/-- The slot call written in the body of the bridge function: the slot of the
same name with the parameters in order, and for `_jni_GetStringChars` and
`_jni_GetByteArrayElements` a literal `NULL` as third argument. -/
def BridgeCall.issued : BridgeCall → Call
  | .GetStringChars env str => ⟨.GetStringChars, [.ptr env, .ptr str, .ptr NULL]⟩
  | .GetByteArrayElements env arr => ⟨.GetByteArrayElements, [.ptr env, .ptr arr, .ptr NULL]⟩
  | c => ⟨c.name, c.args⟩

/-! ## Sequences of calls -/

section Sequences

variable {σ : Type}

/-- Running a sequence of bridge calls, each in the state the previous one
left; the results are collected in order. -/
def runSeq (m : Memory σ) : List BridgeCall → σ → Option (List Val × σ)
  | [], s => some ([], s)
  | c :: cs, s =>
      match c.run m s with
      | none => none
      | some (v, s1) =>
          match runSeq m cs s1 with
          | none => none
          | some (vs, s2) => some (v :: vs, s2)

/-- Making a sequence of direct slot calls, each in the state the previous one
left; the results are collected in order. -/
def invokeSeq (m : Memory σ) : List Call → σ → Option (List Val × σ)
  | [], s => some ([], s)
  | c :: cs, s =>
      match invoke m c s with
      | none => none
      | some (v, s1) =>
          match invokeSeq m cs s1 with
          | none => none
          | some (vs, s2) => some (v :: vs, s2)

end Sequences

/-! ## Classification of the entry points -/

/-- The names of the functions `jni.c` defines (without the `_jni_` prefix),
in source order. -/
def bridgeOps : List Slot :=
  [.AttachCurrentThread, .DetachCurrentThread, .GetEnv, .FindClass, .ExceptionOccurred,
   .ExceptionClear, .GetObjectClass, .GetMethodID, .GetStaticMethodID, .GetStringLength,
   .GetStringChars, .NewString, .IsSameObject, .NewGlobalRef, .DeleteGlobalRef,
   .CallStaticVoidMethodA, .CallStaticIntMethodA, .CallStaticObjectMethodA,
   .CallObjectMethodA, .CallBooleanMethodA, .CallIntMethodA, .CallVoidMethodA,
   .NewByteArray, .GetByteArrayElements, .ReleaseByteArrayElements, .GetArrayLength]

/-- What a method invocation returns. -/
inductive RetShape where
  | void
  | integer
  | boolean
  | object
  deriving DecidableEq

/-- What a method is invoked on: an object (`onObject`, parameter `jobject obj`)
or a class (`onClass`, parameter `jclass cls`, the static variants). -/
inductive TargetKind where
  | onObject
  | onClass
  deriving DecidableEq

/-- The target kind and return shape of a method-invocation slot; `none` for
a slot that does not invoke a method. -/
def Slot.shape : Slot → Option (TargetKind × RetShape)
  | .CallVoidMethodA => some (.onObject, .void)
  | .CallIntMethodA => some (.onObject, .integer)
  | .CallBooleanMethodA => some (.onObject, .boolean)
  | .CallObjectMethodA => some (.onObject, .object)
  | .CallStaticVoidMethodA => some (.onClass, .void)
  | .CallStaticIntMethodA => some (.onClass, .integer)
  | .CallStaticBooleanMethodA => some (.onClass, .boolean)
  | .CallStaticObjectMethodA => some (.onClass, .object)
  | _ => none

/-- The return shape a C result value has: nothing is `void`, a `jint` is
`integer`, a `jboolean` is `boolean`, a reference is `object`. -/
def Val.shape : Val → RetShape
  | .unit => .void
  | .int _ => .integer
  | .bool _ => .boolean
  | .ptr _ => .object

/-- The bridge functions that invoke a method with the given target kind and
return shape. -/
def opsOfShape (k : TargetKind × RetShape) : List Slot :=
  bridgeOps.filter fun n => decide (n.shape = some k)

/-- The failure signal of a slot: a non-zero status from the three
thread-lifecycle slots, a null reference from a slot that returns a pointer or
reference. -/
def Val.isFailure : Val → Slot → Bool
  | .int i, .AttachCurrentThread => decide (i ≠ 0)
  | .int i, .DetachCurrentThread => decide (i ≠ 0)
  | .int i, .GetEnv => decide (i ≠ 0)
  | .ptr p, _ => decide (p = NULL)
  | _, _ => false

/-! ## A small runtime

A concrete runtime with one thread, used to run the bridge on: it keeps
lengths of the strings and arrays it made, a bounded table of global
references, a pending exception and the memory words written through
out-pointers.
-/

/-- The state of the small runtime. -/
structure Toy where
  attached : Bool
  pending : jthrowable
  sized : List (Ptr × jsize)
  globals : List (jobject × jobject)
  cells : List (Ptr × Ptr)
  fresh : Ptr
  deriving DecidableEq

/-- The `JavaVM *` of the small runtime. -/
def toyVM : Ptr := 0x7000

/-- The `JNIEnv *` of the small runtime's thread. -/
def toyEnvp : Ptr := 0x7100

/-- The exception object the small runtime throws. -/
def toyExc : jthrowable := 0xE0

/-- The freshly started small runtime. -/
def Toy.init : Toy := ⟨false, NULL, [], [], [], 0x100⟩

/-- The small runtime with its thread attached and its global-reference table
full. -/
def Toy.full : Toy := ⟨true, NULL, [], [(0xA0, 0x10), (0xA1, 0x11)], [], 0x100⟩

/-- Writing `v` to the word at `p`; nothing is written through `NULL`. -/
def Toy.store (s : Toy) (p v : Ptr) : Toy :=
  if p = NULL then s else { s with cells := (p, v) :: s.cells }

/-- The word last written at `p`, `NULL` when none was. -/
def Toy.read (s : Toy) (p : Ptr) : Ptr :=
  ((s.cells.find? fun c => c.1 == p).map fun c => c.2).getD NULL

/-- The object a reference names: a global reference names the object it was
made from, any other token names itself. -/
def Toy.referent (s : Toy) (r : jobject) : jobject :=
  ((s.globals.find? fun g => g.1 == r).map fun g => g.2).getD r

/-- The recorded length of a string or array, 0 when there is none. -/
def Toy.lengthOf (s : Toy) (r : Ptr) : jsize :=
  ((s.sized.find? fun g => g.1 == r).map fun g => g.2).getD 0

/-- Allocating a string or array of `len` elements: `NULL` for a negative
length and for one beyond the heap limit of `0xFFFF` elements. -/
def Toy.alloc (s : Toy) (len : jsize) : Ptr × Toy :=
  if len < 0 ∨ 0xFFFF < len then (NULL, s)
  else (s.fresh, { s with sized := (s.fresh, len) :: s.sized, fresh := s.fresh + 1 })

/-- Running a method: method 1 returns 42; method 2 throws and yields 0;
method 3 throws after it computed 7 and yields that; any other yields 0. -/
def Toy.invokeMethod (s : Toy) (method : jmethodID) : Int × Toy :=
  if method = 1 then (42, s)
  else if method = 2 then (0, { s with pending := toyExc })
  else if method = 3 then (7, { s with pending := toyExc })
  else (0, s)

/-- The invocation table of the small runtime.  Attaching is idempotent. -/
def toyInvokeInterface : JNIInvokeInterface Toy where
  AttachCurrentThread _ p_env _ s := (0, { s.store p_env toyEnvp with attached := true })
  DetachCurrentThread _ s := if s.attached then (0, { s with attached := false }) else (-2, s)
  GetEnv _ env version s :=
    if !s.attached then (-2, s.store env NULL)
    else if version = 0x10006 then (0, s.store env toyEnvp)
    else (-3, s.store env NULL)

/-- The native-interface table of the small runtime. -/
def toyNativeInterface : JNINativeInterface Toy where
  FindClass _ name s := if name = NULL then (NULL, { s with pending := toyExc }) else (name + 1, s)
  ExceptionOccurred _ s := (s.pending, s)
  ExceptionClear _ s := { s with pending := NULL }
  GetObjectClass _ obj s := (s.referent obj + 1, s)
  GetMethodID _ clazz name _ s := (if clazz = NULL then NULL else name, s)
  GetStaticMethodID _ clazz name _ s := (if clazz = NULL then NULL else name, s)
  GetStringLength _ str s := (s.lengthOf str, s)
  GetStringChars _ str isCopy s := (str + 0x1000, s.store isCopy 1)
  NewString _ _ len s := s.alloc len
  IsSameObject _ ref1 ref2 s := (if s.referent ref1 = s.referent ref2 then 1 else 0, s)
  NewGlobalRef _ obj s :=
    if obj = NULL ∨ 2 ≤ s.globals.length then (NULL, s)
    else (s.fresh, { s with globals := (s.fresh, s.referent obj) :: s.globals,
                            fresh := s.fresh + 1 })
  DeleteGlobalRef _ obj s := { s with globals := s.globals.filter fun g => g.1 != obj }
  CallStaticVoidMethodA _ _ method _ s := (s.invokeMethod method).2
  CallStaticIntMethodA _ _ method _ s := s.invokeMethod method
  CallStaticBooleanMethodA _ _ method _ s :=
    ((s.invokeMethod method).1.toNat % 2, (s.invokeMethod method).2)
  CallStaticObjectMethodA _ _ method _ s :=
    ((s.invokeMethod method).1.toNat, (s.invokeMethod method).2)
  CallObjectMethodA _ _ method _ s :=
    ((s.invokeMethod method).1.toNat, (s.invokeMethod method).2)
  CallBooleanMethodA _ _ method _ s :=
    ((s.invokeMethod method).1.toNat % 2, (s.invokeMethod method).2)
  CallIntMethodA _ _ method _ s := s.invokeMethod method
  CallVoidMethodA _ _ method _ s := (s.invokeMethod method).2
  NewByteArray _ length s := s.alloc length
  GetByteArrayElements _ arr isCopy s := (arr + 0x1000, s.store isCopy 1)
  ReleaseByteArrayElements _ _ _ _ s := s
  GetArrayLength _ arr s := (s.lengthOf arr, s)

/-- The memory of the small runtime: `toyVM` and `toyEnvp` point to its tables. -/
def toyMem : Memory Toy where
  loadVM _ p := if p = toyVM then some toyInvokeInterface else none
  loadEnv _ p := if p = toyEnvp then some toyNativeInterface else none

/-- An invocation table whose attach hands out a new environment handle on
every call. -/
def freshInvokeInterface : JNIInvokeInterface Toy where
  AttachCurrentThread _ p_env _ s :=
    (0, { s.store p_env s.fresh with attached := true, fresh := s.fresh + 1 })
  DetachCurrentThread := toyInvokeInterface.DetachCurrentThread
  GetEnv := toyInvokeInterface.GetEnv

/-- The small runtime's memory with `toyVM` pointing to `freshInvokeInterface`. -/
def freshMem : Memory Toy where
  loadVM _ p := if p = toyVM then some freshInvokeInterface else none
  loadEnv := toyMem.loadEnv

/-! ## Basic facts -/

section Facts

variable {σ : Type}

/-- Under tracing a bridge call returns what it returns without tracing and
appends exactly one record, that of the slot call in its body. -/
theorem run_traced (m : Memory σ) (c : BridgeCall) (s : σ) (log : List Call) :
    c.run m.traced (s, log)
      = (c.run m s).map fun r => (r.1, (r.2, log ++ [c.issued])) := by
  cases c <;>
    simp only [BridgeCall.run, BridgeCall.issued, BridgeCall.name, BridgeCall.args,
      _jni_AttachCurrentThread, _jni_DetachCurrentThread, _jni_GetEnv, _jni_FindClass,
      _jni_ExceptionOccurred, _jni_ExceptionClear, _jni_GetObjectClass, _jni_GetMethodID,
      _jni_GetStaticMethodID, _jni_GetStringLength, _jni_GetStringChars, _jni_NewString,
      _jni_IsSameObject, _jni_NewGlobalRef, _jni_DeleteGlobalRef, _jni_CallStaticVoidMethodA,
      _jni_CallStaticIntMethodA, _jni_CallStaticObjectMethodA, _jni_CallObjectMethodA,
      _jni_CallBooleanMethodA, _jni_CallIntMethodA, _jni_CallVoidMethodA, _jni_NewByteArray,
      _jni_GetByteArrayElements, _jni_ReleaseByteArrayElements, _jni_GetArrayLength,
      Memory.traced, JNIInvokeInterface.traced, JNINativeInterface.traced, logged, loggedVoid,
      retInt, retPtr, retBool, retUnit, Option.map_map, Function.comp_def]

/-- A bridge call is the direct call of the slot call in its body. -/
theorem run_eq_invoke (m : Memory σ) (c : BridgeCall) (s : σ) :
    c.run m s = invoke m c.issued s := by
  cases c <;>
    simp only [BridgeCall.run, BridgeCall.issued, BridgeCall.name, BridgeCall.args, invoke,
      _jni_AttachCurrentThread, _jni_DetachCurrentThread, _jni_GetEnv, _jni_FindClass,
      _jni_ExceptionOccurred, _jni_ExceptionClear, _jni_GetObjectClass, _jni_GetMethodID,
      _jni_GetStaticMethodID, _jni_GetStringLength, _jni_GetStringChars, _jni_NewString,
      _jni_IsSameObject, _jni_NewGlobalRef, _jni_DeleteGlobalRef, _jni_CallStaticVoidMethodA,
      _jni_CallStaticIntMethodA, _jni_CallStaticObjectMethodA, _jni_CallObjectMethodA,
      _jni_CallBooleanMethodA, _jni_CallIntMethodA, _jni_CallVoidMethodA, _jni_NewByteArray,
      _jni_GetByteArrayElements, _jni_ReleaseByteArrayElements, _jni_GetArrayLength,
      Option.map_map, Function.comp_def]

end Facts

/-! ## Pass-through -/

section PassThrough

variable {σ : Type}

/-- C1: each of the twenty-one value-returning bridge functions returns, for
every dispatch table reached through its handle and every argument tuple,
exactly what the same-named slot of that table returns (value and state). -/
theorem bridge_returns_slot_result (m : Memory σ) (s : σ) (vm env : Ptr)
    (vfns : JNIInvokeInterface σ) (fns : JNINativeInterface σ)
    (hvm : m.loadVM s vm = some vfns) (henv : m.loadEnv s env = some fns) :
    (∀ p_env thr_args, _jni_AttachCurrentThread m vm p_env thr_args s
        = some (vfns.AttachCurrentThread vm p_env thr_args s)) ∧
    (_jni_DetachCurrentThread m vm s = some (vfns.DetachCurrentThread vm s)) ∧
    (∀ p version, _jni_GetEnv m vm p version s = some (vfns.GetEnv vm p version s)) ∧
    (∀ name, _jni_FindClass m env name s = some (fns.FindClass env name s)) ∧
    (_jni_ExceptionOccurred m env s = some (fns.ExceptionOccurred env s)) ∧
    (∀ obj, _jni_GetObjectClass m env obj s = some (fns.GetObjectClass env obj s)) ∧
    (∀ clazz name sig, _jni_GetMethodID m env clazz name sig s
        = some (fns.GetMethodID env clazz name sig s)) ∧
    (∀ clazz name sig, _jni_GetStaticMethodID m env clazz name sig s
        = some (fns.GetStaticMethodID env clazz name sig s)) ∧
    (∀ str, _jni_GetStringLength m env str s = some (fns.GetStringLength env str s)) ∧
    (∀ str, _jni_GetStringChars m env str s = some (fns.GetStringChars env str NULL s)) ∧
    (∀ unicodeChars len, _jni_NewString m env unicodeChars len s
        = some (fns.NewString env unicodeChars len s)) ∧
    (∀ ref1 ref2, _jni_IsSameObject m env ref1 ref2 s
        = some (fns.IsSameObject env ref1 ref2 s)) ∧
    (∀ obj, _jni_NewGlobalRef m env obj s = some (fns.NewGlobalRef env obj s)) ∧
    (∀ cls method args, _jni_CallStaticIntMethodA m env cls method args s
        = some (fns.CallStaticIntMethodA env cls method args s)) ∧
    (∀ cls method args, _jni_CallStaticObjectMethodA m env cls method args s
        = some (fns.CallStaticObjectMethodA env cls method args s)) ∧
    (∀ obj method args, _jni_CallObjectMethodA m env obj method args s
        = some (fns.CallObjectMethodA env obj method args s)) ∧
    (∀ obj method args, _jni_CallBooleanMethodA m env obj method args s
        = some (fns.CallBooleanMethodA env obj method args s)) ∧
    (∀ obj method args, _jni_CallIntMethodA m env obj method args s
        = some (fns.CallIntMethodA env obj method args s)) ∧
    (∀ length, _jni_NewByteArray m env length s = some (fns.NewByteArray env length s)) ∧
    (∀ arr, _jni_GetByteArrayElements m env arr s
        = some (fns.GetByteArrayElements env arr NULL s)) ∧
    (∀ arr, _jni_GetArrayLength m env arr s = some (fns.GetArrayLength env arr s)) := by
  simp [_jni_AttachCurrentThread, _jni_DetachCurrentThread, _jni_GetEnv, _jni_FindClass,
    _jni_ExceptionOccurred, _jni_GetObjectClass, _jni_GetMethodID, _jni_GetStaticMethodID,
    _jni_GetStringLength, _jni_GetStringChars, _jni_NewString, _jni_IsSameObject,
    _jni_NewGlobalRef, _jni_CallStaticIntMethodA, _jni_CallStaticObjectMethodA,
    _jni_CallObjectMethodA, _jni_CallBooleanMethodA, _jni_CallIntMethodA, _jni_NewByteArray,
    _jni_GetByteArrayElements, _jni_GetArrayLength, hvm, henv]

/-- Witness of C1 on the small runtime: both handles reach a table, and
attaching through the bridge returns what the table's slot returns. -/
theorem bridge_returns_slot_result_witness :
    toyMem.loadVM Toy.init toyVM = some toyInvokeInterface ∧
    toyMem.loadEnv Toy.init toyEnvp = some toyNativeInterface ∧
    _jni_AttachCurrentThread toyMem toyVM 0x600 NULL Toy.init
      = some (toyInvokeInterface.AttachCurrentThread toyVM 0x600 NULL Toy.init) ∧
    _jni_AttachCurrentThread toyMem toyVM 0x600 NULL Toy.init
      = some (0, ⟨true, NULL, [], [], [(0x600, toyEnvp)], 0x100⟩) :=
  ⟨rfl, rfl,
    (bridge_returns_slot_result toyMem Toy.init toyVM toyEnvp toyInvokeInterface
      toyNativeInterface rfl rfl).1 0x600 NULL,
    rfl⟩

/-- X1: each of the five `void` bridge functions, for every dispatch table
reached through its handle and every argument tuple, leaves exactly the
runtime state that the same-named slot leaves. -/
theorem void_bridge_runs_slot (m : Memory σ) (s : σ) (env : Ptr)
    (fns : JNINativeInterface σ) (henv : m.loadEnv s env = some fns) :
    (_jni_ExceptionClear m env s = some (fns.ExceptionClear env s)) ∧
    (∀ obj, _jni_DeleteGlobalRef m env obj s = some (fns.DeleteGlobalRef env obj s)) ∧
    (∀ cls method args, _jni_CallStaticVoidMethodA m env cls method args s
        = some (fns.CallStaticVoidMethodA env cls method args s)) ∧
    (∀ obj method args, _jni_CallVoidMethodA m env obj method args s
        = some (fns.CallVoidMethodA env obj method args s)) ∧
    (∀ arr elems mode, _jni_ReleaseByteArrayElements m env arr elems mode s
        = some (fns.ReleaseByteArrayElements env arr elems mode s)) := by
  simp [_jni_ExceptionClear, _jni_DeleteGlobalRef, _jni_CallStaticVoidMethodA,
    _jni_CallVoidMethodA, _jni_ReleaseByteArrayElements, henv]

/-- Witness of X1 on the small runtime: deleting global reference `0xA0`
through the bridge leaves the table with the other reference only. -/
theorem void_bridge_runs_slot_witness :
    toyMem.loadEnv Toy.full toyEnvp = some toyNativeInterface ∧
    _jni_DeleteGlobalRef toyMem toyEnvp 0xA0 Toy.full
      = some (toyNativeInterface.DeleteGlobalRef toyEnvp 0xA0 Toy.full) ∧
    _jni_DeleteGlobalRef toyMem toyEnvp 0xA0 Toy.full
      = some ⟨true, NULL, [], [(0xA1, 0x11)], [], 0x100⟩ :=
  ⟨rfl,
    (void_bridge_runs_slot toyMem Toy.full toyEnvp toyNativeInterface rfl).2.1 0xA0,
    rfl⟩

end PassThrough

/-! ## What the dispatch table sees -/

section Arguments

variable {σ : Type}

/-- A bridge call whose handle reaches a table returns a result. -/
theorem run_isSome_of_reaches (m : Memory σ) (c : BridgeCall) (s : σ)
    (h : c.Reaches m s) : ∃ v s1, c.run m s = some (v, s1) := by
  have key : (c.run m s).isSome = true := by
    cases c <;>
      simpa [BridgeCall.Reaches, BridgeCall.onVM, BridgeCall.handle, BridgeCall.run,
        _jni_AttachCurrentThread, _jni_DetachCurrentThread, _jni_GetEnv, _jni_FindClass,
        _jni_ExceptionOccurred, _jni_ExceptionClear, _jni_GetObjectClass, _jni_GetMethodID,
        _jni_GetStaticMethodID, _jni_GetStringLength, _jni_GetStringChars, _jni_NewString,
        _jni_IsSameObject, _jni_NewGlobalRef, _jni_DeleteGlobalRef,
        _jni_CallStaticVoidMethodA, _jni_CallStaticIntMethodA, _jni_CallStaticObjectMethodA,
        _jni_CallObjectMethodA, _jni_CallBooleanMethodA, _jni_CallIntMethodA,
        _jni_CallVoidMethodA, _jni_NewByteArray, _jni_GetByteArrayElements,
        _jni_ReleaseByteArrayElements, _jni_GetArrayLength] using h
  obtain ⟨r, hr⟩ := Option.isSome_iff_exists.mp key
  exact ⟨r.1, r.2, hr⟩

/-- The slot call in the body of a bridge function is to the slot of the same
name. -/
theorem issued_slot (c : BridgeCall) : c.issued.slot = c.name := by
  cases c <;> rfl

/-- The argument list of the slot call in the body of a bridge function: the
function's own argument list, with `NULL` appended in the two buffer getters. -/
theorem issued_args (c : BridgeCall) :
    c.issued.args
      = if c.name = .GetStringChars ∨ c.name = .GetByteArrayElements
        then c.args ++ [.ptr NULL] else c.args := by
  cases c <;> simp [BridgeCall.issued, BridgeCall.name, BridgeCall.args]

/-- C2, amended: on a recording table, every bridge function other than
`_jni_GetStringChars` and `_jni_GetByteArrayElements` makes exactly one slot
call, to the same-named slot, with exactly its own argument list (same number,
order and values, the handle first); those two make exactly one call with
their own two arguments in place followed by an added `NULL`. -/
theorem bridge_forwards_arguments (m : Memory σ) (c : BridgeCall) (s : σ)
    (log : List Call) (h : c.Reaches m s) :
    ∃ v s1, c.run m.traced (s, log)
      = some (v, (s1, log ++ [⟨c.name,
          if c.name = .GetStringChars ∨ c.name = .GetByteArrayElements
          then c.args ++ [.ptr NULL] else c.args⟩])) := by
  obtain ⟨v, s1, hr⟩ := run_isSome_of_reaches m c s h
  refine ⟨v, s1, ?_⟩
  rw [run_traced, hr, ← issued_args, ← issued_slot]
  rfl

/-- Witness of C2, amended: `_jni_NewString` on the small runtime, with a
negative length, calls `NewString` once with its three arguments unchanged. -/
theorem bridge_forwards_arguments_witness :
    (BridgeCall.NewString toyEnvp 0x500 (-1)).Reaches toyMem Toy.init ∧
    ∃ v s1, (BridgeCall.NewString toyEnvp 0x500 (-1)).run toyMem.traced (Toy.init, [])
      = some (v, (s1, [⟨.NewString, [.ptr toyEnvp, .ptr 0x500, .int (-1)]⟩])) :=
  ⟨rfl,
    bridge_forwards_arguments toyMem (BridgeCall.NewString toyEnvp 0x500 (-1)) Toy.init []
      rfl⟩

/-- C2, counterexample: `_jni_GetStringChars` takes two arguments and calls
the slot `GetStringChars` with three, the third a `NULL` it adds. -/
theorem getStringChars_adds_argument :
    (BridgeCall.GetStringChars toyEnvp 0x100).args = [.ptr toyEnvp, .ptr 0x100] ∧
    (BridgeCall.GetStringChars toyEnvp 0x100).run toyMem.traced (Toy.init, [])
      = some (.ptr 0x1100,
          (Toy.init, [⟨.GetStringChars, [.ptr toyEnvp, .ptr 0x100, .ptr NULL]⟩])) ∧
    [Val.ptr toyEnvp, .ptr 0x100, .ptr NULL] ≠ (BridgeCall.GetStringChars toyEnvp 0x100).args :=
  ⟨rfl, rfl, by decide⟩

/-- C10: `_jni_GetStringChars` and `_jni_GetByteArrayElements` take two
arguments, call their three-argument slot exactly once with the handle and the
reference unchanged and `NULL` as is-copy pointer, and return the slot's result
unchanged. -/
theorem buffer_getters_pass_null_isCopy (m : Memory σ) (env ref : Ptr) (s : σ)
    (log : List Call) (fns : JNINativeInterface σ) (henv : m.loadEnv s env = some fns) :
    (BridgeCall.GetStringChars env ref).args = [.ptr env, .ptr ref] ∧
    (BridgeCall.GetByteArrayElements env ref).args = [.ptr env, .ptr ref] ∧
    _jni_GetStringChars m env ref s = some (fns.GetStringChars env ref NULL s) ∧
    _jni_GetByteArrayElements m env ref s = some (fns.GetByteArrayElements env ref NULL s) ∧
    _jni_GetStringChars m.traced env ref (s, log)
      = some ((fns.GetStringChars env ref NULL s).1,
          ((fns.GetStringChars env ref NULL s).2,
            log ++ [⟨.GetStringChars, [.ptr env, .ptr ref, .ptr NULL]⟩])) ∧
    _jni_GetByteArrayElements m.traced env ref (s, log)
      = some ((fns.GetByteArrayElements env ref NULL s).1,
          ((fns.GetByteArrayElements env ref NULL s).2,
            log ++ [⟨.GetByteArrayElements, [.ptr env, .ptr ref, .ptr NULL]⟩])) := by
  simp [BridgeCall.args, _jni_GetStringChars, _jni_GetByteArrayElements, Memory.traced,
    JNINativeInterface.traced, logged, henv]

/-- Witness of C10 on the small runtime: the runtime, which writes the is-copy
flag through a non-null third argument, is handed `NULL` and writes nothing. -/
theorem buffer_getters_pass_null_isCopy_witness :
    toyMem.loadEnv Toy.init toyEnvp = some toyNativeInterface ∧
    _jni_GetByteArrayElements toyMem.traced toyEnvp 0x100 (Toy.init, [])
      = some (0x1100,
          (Toy.init, [⟨.GetByteArrayElements, [.ptr toyEnvp, .ptr 0x100, .ptr NULL]⟩])) :=
  ⟨rfl,
    (buffer_getters_pass_null_isCopy toyMem toyEnvp 0x100 Toy.init [] toyNativeInterface
      rfl).2.2.2.2.2⟩

end Arguments

/-! ## The method-invocation variants -/

section Invocation

/-- The names in `bridgeOps` are exactly the names of the bridge calls. -/
theorem mem_bridgeOps_iff (n : Slot) : n ∈ bridgeOps ↔ ∃ c : BridgeCall, c.name = n := by
  constructor
  · intro h
    cases n <;> first
      | exact absurd h (by decide)
      | exact ⟨.AttachCurrentThread 0 0 0, rfl⟩
      | exact ⟨.DetachCurrentThread 0, rfl⟩
      | exact ⟨.GetEnv 0 0 0, rfl⟩
      | exact ⟨.FindClass 0 0, rfl⟩
      | exact ⟨.ExceptionOccurred 0, rfl⟩
      | exact ⟨.ExceptionClear 0, rfl⟩
      | exact ⟨.GetObjectClass 0 0, rfl⟩
      | exact ⟨.GetMethodID 0 0 0 0, rfl⟩
      | exact ⟨.GetStaticMethodID 0 0 0 0, rfl⟩
      | exact ⟨.GetStringLength 0 0, rfl⟩
      | exact ⟨.GetStringChars 0 0, rfl⟩
      | exact ⟨.NewString 0 0 0, rfl⟩
      | exact ⟨.IsSameObject 0 0 0, rfl⟩
      | exact ⟨.NewGlobalRef 0 0, rfl⟩
      | exact ⟨.DeleteGlobalRef 0 0, rfl⟩
      | exact ⟨.CallStaticVoidMethodA 0 0 0 0, rfl⟩
      | exact ⟨.CallStaticIntMethodA 0 0 0 0, rfl⟩
      | exact ⟨.CallStaticObjectMethodA 0 0 0 0, rfl⟩
      | exact ⟨.CallObjectMethodA 0 0 0 0, rfl⟩
      | exact ⟨.CallBooleanMethodA 0 0 0 0, rfl⟩
      | exact ⟨.CallIntMethodA 0 0 0 0, rfl⟩
      | exact ⟨.CallVoidMethodA 0 0 0 0, rfl⟩
      | exact ⟨.NewByteArray 0 0, rfl⟩
      | exact ⟨.GetByteArrayElements 0 0, rfl⟩
      | exact ⟨.ReleaseByteArrayElements 0 0 0 0, rfl⟩
      | exact ⟨.GetArrayLength 0 0, rfl⟩
  · rintro ⟨c, rfl⟩
    cases c <;> simp [BridgeCall.name, bridgeOps]

/-- A method-invocation bridge call takes `(env, target, method, args)`. -/
theorem invocation_args (c : BridgeCall) (k : TargetKind × RetShape)
    (hk : c.name.shape = some k) :
    ∃ env target method args, c.args = [.ptr env, .ptr target, .ptr method, .ptr args] ∧
      c.handle = env := by
  cases c <;> simp [BridgeCall.name, Slot.shape] at hk <;>
    exact ⟨_, _, _, _, rfl, rfl⟩

/-- The result of a method-invocation bridge call has the return shape of the
same-named slot. -/
theorem invocation_result_shape {σ : Type} (m : Memory σ) (c : BridgeCall) (s s1 : σ)
    (v : Val) (k : TargetKind × RetShape) (hk : c.name.shape = some k)
    (h : c.run m s = some (v, s1)) : v.shape = k.2 := by
  cases c <;> simp only [BridgeCall.name, Slot.shape, Option.some.injEq, reduceCtorEq] at hk <;>
    subst hk <;>
    simp only [BridgeCall.run, Option.map_eq_some', retInt, retPtr, retBool, retUnit,
      Prod.mk.injEq] at h <;>
    obtain ⟨_, -, rfl, -⟩ := h <;> rfl

/-- C3, amended: for each combination of target kind and return shape other
than static boolean (seven in all) the bridge has exactly one function; every
call of it takes `(env, target, method, args)`, makes exactly one slot call,
to the slot of that target kind and return shape, with those four arguments
unchanged, and returns a value of that return shape. -/
theorem seven_invocation_variants (k : TargetKind × RetShape)
    (hk : k ≠ (.onClass, .boolean)) :
    ∃ n, opsOfShape k = [n] ∧ n.shape = some k ∧ (∃ c : BridgeCall, c.name = n) ∧
      ∀ (σ : Type) (m : Memory σ) (c : BridgeCall) (s : σ) (log : List Call),
        c.name = n → c.Reaches m s →
        ∃ env target method args v s1 call,
          c.args = [.ptr env, .ptr target, .ptr method, .ptr args] ∧
          c.run m.traced (s, log) = some (v, (s1, log ++ [call])) ∧
          v.shape = k.2 ∧
          call.slot.shape = some k ∧
          call.args = [.ptr env, .ptr target, .ptr method, .ptr args] := by
  have hex : ∃ n, opsOfShape k = [n] ∧ n.shape = some k := by
    rcases k with ⟨t, r⟩
    cases t <;> cases r <;> first
      | exact absurd rfl hk
      | exact ⟨_, rfl, rfl⟩
  obtain ⟨n, hn, hs⟩ := hex
  have hmem : n ∈ bridgeOps := by
    have : n ∈ opsOfShape k := by rw [hn]; exact List.mem_singleton.mpr rfl
    exact (List.mem_filter.mp this).1
  refine ⟨n, hn, hs, (mem_bridgeOps_iff n).mp hmem, ?_⟩
  intro σ m c s log hc hr
  subst hc
  obtain ⟨env, target, method, args, hargs, -⟩ := invocation_args c k hs
  obtain ⟨v, s1, hrun⟩ := run_isSome_of_reaches m c s hr
  have h1 : c.name ≠ .GetStringChars := by
    intro h; rw [h] at hs; simp [Slot.shape] at hs
  have h2 : c.name ≠ .GetByteArrayElements := by
    intro h; rw [h] at hs; simp [Slot.shape] at hs
  refine ⟨env, target, method, args, v, s1, c.issued, hargs, ?_,
    invocation_result_shape m c s s1 v k hs hrun, ?_, ?_⟩
  · rw [run_traced, hrun]; rfl
  · rw [issued_slot]; exact hs
  · rw [issued_args]; simp [h1, h2, hargs]

/-- Witness of C3, amended: the static integer variant is
`_jni_CallStaticIntMethodA` and nothing else. -/
theorem seven_invocation_variants_witness :
    ((TargetKind.onClass, RetShape.integer) ≠ (.onClass, .boolean)) ∧
    opsOfShape (.onClass, .integer) = [.CallStaticIntMethodA] ∧
    (∃ n, opsOfShape (.onClass, .integer) = [n] ∧ n.shape = some (.onClass, .integer)) ∧
    (BridgeCall.CallStaticIntMethodA toyEnvp 0x20 1 0x30).run toyMem.traced (Toy.init, [])
      = some (.int 42, (Toy.init,
          [⟨.CallStaticIntMethodA, [.ptr toyEnvp, .ptr 0x20, .ptr 1, .ptr 0x30]⟩])) :=
  ⟨by decide, rfl,
    (seven_invocation_variants (.onClass, .integer) (by decide)).imp
      fun _ h => ⟨h.1, h.2.1⟩,
    rfl⟩

/-- C3, counterexample: no function of `jni.c` invokes a static method with a
boolean result: the invocation functions are seven, not eight, and no bridge
call reaches the slot `CallStaticBooleanMethodA`. -/
theorem no_static_boolean_variant :
    opsOfShape (.onClass, .boolean) = [] ∧
    (bridgeOps.filter fun n => n.shape.isSome).length = 7 ∧
    ¬ ∃ c : BridgeCall, c.issued.slot = .CallStaticBooleanMethodA := by
  refine ⟨by decide, by decide, ?_⟩
  rintro ⟨c, h⟩
  cases c <;> simp [BridgeCall.issued, BridgeCall.name] at h

end Invocation

/-! ## No validation, no state -/

section Stateless

variable {σ : Type}

/-- C4: whatever the argument values are (null references, null names, a
negative length, an unknown version or mode), a bridge call whose handle
reaches a table makes its slot call, exactly once, with every argument value as
given, and returns exactly what the slot returned; so it returns a failure
signal if and only if the slot returned that very signal. -/
theorem no_validation_no_translation (m : Memory σ) (c : BridgeCall) (s : σ)
    (h : c.Reaches m s) :
    ∃ v s1 call,
      c.run m.traced (s, []) = some (v, (s1, [call])) ∧
      call.slot = c.name ∧ c.args <+: call.args ∧
      c.run m s = some (v, s1) ∧
      invoke m call s = some (v, s1) ∧
      (v.isFailure c.name = true ↔
        ∃ v0 s0, invoke m call s = some (v0, s0) ∧ v0.isFailure call.slot = true ∧ v0 = v) := by
  obtain ⟨v, s1, hr⟩ := run_isSome_of_reaches m c s h
  have hinv : invoke m c.issued s = some (v, s1) := by rw [← run_eq_invoke, hr]
  refine ⟨v, s1, c.issued, ?_, issued_slot c, ?_, hr, hinv, ?_⟩
  · rw [run_traced, hr]; rfl
  · rw [issued_args]
    split
    · exact List.prefix_append _ _
    · exact List.prefix_refl _
  · rw [issued_slot]
    constructor
    · intro hf
      exact ⟨v, s1, hinv, hf, rfl⟩
    · rintro ⟨v0, s0, -, hf, rfl⟩
      exact hf

/-- Witness of C4 on the small runtime: `_jni_NewByteArray` with length `-5`
still calls the slot, and returns the null reference because the slot did. -/
theorem no_validation_no_translation_witness :
    (BridgeCall.NewByteArray toyEnvp (-5)).Reaches toyMem Toy.init ∧
    (BridgeCall.NewByteArray toyEnvp (-5)).run toyMem.traced (Toy.init, [])
      = some (.ptr NULL, (Toy.init, [⟨.NewByteArray, [.ptr toyEnvp, .int (-5)]⟩])) ∧
    ∃ v s1 call,
      (BridgeCall.NewByteArray toyEnvp (-5)).run toyMem.traced (Toy.init, [])
        = some (v, (s1, [call])) ∧
      call.slot = .NewByteArray ∧ invoke toyMem call Toy.init = some (v, s1) :=
  ⟨rfl, rfl,
    (no_validation_no_translation toyMem (BridgeCall.NewByteArray toyEnvp (-5)) Toy.init
      rfl).imp fun _ h1 => h1.imp fun _ h2 => h2.imp fun _ h3 => ⟨h3.1, h3.2.1, h3.2.2.2.2.1⟩⟩

/-- A sequence of bridge calls is the sequence of direct slot calls in their
bodies. -/
theorem runSeq_eq_invokeSeq (m : Memory σ) (cs : List BridgeCall) (s : σ) :
    runSeq m cs s = invokeSeq m (cs.map BridgeCall.issued) s := by
  induction cs generalizing s with
  | nil => rfl
  | cons c cs ih =>
    simp only [runSeq, invokeSeq, List.map_cons, run_eq_invoke]
    cases invoke m c.issued s with
    | none => rfl
    | some r => simp only [ih]

/-- Under tracing a sequence of bridge calls returns what it returns without
tracing, and the log grows by one record per call, in order. -/
theorem runSeq_traced (m : Memory σ) (cs : List BridgeCall) (s : σ) (log : List Call) :
    runSeq m.traced cs (s, log)
      = (runSeq m cs s).map fun r => (r.1, (r.2, log ++ cs.map BridgeCall.issued)) := by
  induction cs generalizing s log with
  | nil => simp [runSeq]
  | cons c cs ih =>
    simp only [runSeq, run_traced]
    cases c.run m s with
    | none => rfl
    | some r =>
      obtain ⟨v, s1⟩ := r
      simp only [Option.map_some', ih]
      cases runSeq m cs s1 with
      | none => rfl
      | some r2 => simp

/-- One more call after a sequence: its result is that of the call alone in
the state the sequence reached. -/
theorem runSeq_snoc (m : Memory σ) (pre : List BridgeCall) (c : BridgeCall) (s0 s : σ)
    (vs : List Val) (h : runSeq m pre s0 = some (vs, s)) :
    runSeq m (pre ++ [c]) s0 = (c.run m s).map fun r => (vs ++ [r.1], r.2) := by
  induction pre generalizing s0 vs with
  | nil =>
    simp only [runSeq, Option.some.injEq, Prod.mk.injEq] at h
    obtain ⟨rfl, rfl⟩ := h
    simp only [List.nil_append, runSeq]
    cases c.run m s0 with
    | none => rfl
    | some r => rfl
  | cons d ds ih =>
    simp only [List.cons_append, runSeq] at h ⊢
    cases hd : d.run m s0 with
    | none => simp [hd] at h
    | some r =>
      obtain ⟨v, s1⟩ := r
      simp only [hd] at h
      cases hds : runSeq m ds s1 with
      | none => simp [hds] at h
      | some r2 =>
        obtain ⟨ws, s2⟩ := r2
        simp only [hds, Option.some.injEq, Prod.mk.injEq] at h
        obtain ⟨rfl, rfl⟩ := h
        have step := ih s1 ws hds
        simp only [List.append_eq, step]
        cases c.run m s2 with
        | none => rfl
        | some r3 => rfl

/-- C5: the bridge keeps no state and refines direct table calls.  For every
finite sequence of bridge calls (of any of the twenty-six functions, the `void`
ones included): the results and the final runtime state are those of the same
sequence of direct slot calls; on a recording table the sequence leaves exactly
one record per call, that of its own slot, in order, and the same results and
state as without recording; and the result of a call made after any earlier
bridge calls is the result of that call alone in the runtime state reached. -/
theorem bridge_refines_direct_calls (m : Memory σ) (cs : List BridgeCall) (s : σ) :
    runSeq m cs s = invokeSeq m (cs.map BridgeCall.issued) s ∧
    (∀ log, runSeq m.traced cs (s, log)
      = (runSeq m cs s).map fun r => (r.1, (r.2, log ++ cs.map BridgeCall.issued))) ∧
    (cs.map fun c => c.issued.slot) = cs.map BridgeCall.name ∧
    (∀ s1 vs c, runSeq m cs s = some (vs, s1) →
      runSeq m (cs ++ [c]) s = (c.run m s1).map fun r => (vs ++ [r.1], r.2)) :=
  ⟨runSeq_eq_invokeSeq m cs s, fun log => runSeq_traced m cs s log,
    List.map_congr_left fun c _ => issued_slot c,
    fun s1 vs c h => runSeq_snoc m cs c s s1 vs h⟩

end Stateless

/-! ## Properties of the runtime seen through the bridge

The bridge hands the runtime's answers on.  The round-trip, identity,
idempotence and exception conventions of the specification are conventions of
the runtime behind the dispatch table: the bridge shows them exactly when the
table has them.
-/

section Runtime

variable {σ : Type}

/-- C6, amended: `_jni_NewString` followed by `_jni_GetStringLength` on the
string returned yields exactly what the table's `GetStringLength` slot returns
for the string its `NewString` slot returned; the length is `N` if and only if
those two slots round-trip `N`. -/
theorem newString_then_getStringLength (m : Memory σ) (env buf : Ptr) (N : jsize) (s : σ)
    (fns : JNINativeInterface σ) (henv : ∀ t, m.loadEnv t env = some fns) :
    _jni_NewString m env buf N s = some (fns.NewString env buf N s) ∧
    _jni_GetStringLength m env (fns.NewString env buf N s).1 (fns.NewString env buf N s).2
      = some (fns.GetStringLength env (fns.NewString env buf N s).1
          (fns.NewString env buf N s).2) ∧
    ∀ str s1 len s2, _jni_NewString m env buf N s = some (str, s1) →
      _jni_GetStringLength m env str s1 = some (len, s2) →
      (len = N ↔
        (fns.GetStringLength env (fns.NewString env buf N s).1
          (fns.NewString env buf N s).2).1 = N) := by
  refine ⟨by simp [_jni_NewString, henv], by simp [_jni_GetStringLength, henv], ?_⟩
  intro str s1 len s2 h1 h2
  simp only [_jni_NewString, henv, Option.map_some', Option.some.injEq] at h1
  simp only [_jni_GetStringLength, henv, Option.map_some', Option.some.injEq] at h2
  rw [h1, h2]

/-- Witness of C6, amended: on the small runtime a string made from three code
units has length three. -/
theorem newString_then_getStringLength_witness :
    (∀ t, toyMem.loadEnv t toyEnvp = some toyNativeInterface) ∧
    _jni_NewString toyMem toyEnvp 0x500 3 Toy.init
      = some (0x100, ⟨false, NULL, [(0x100, 3)], [], [], 0x101⟩) ∧
    _jni_GetStringLength toyMem toyEnvp 0x100 ⟨false, NULL, [(0x100, 3)], [], [], 0x101⟩
      = some (3, ⟨false, NULL, [(0x100, 3)], [], [], 0x101⟩) :=
  ⟨fun _ => rfl,
    (newString_then_getStringLength toyMem toyEnvp 0x500 3 Toy.init toyNativeInterface
      fun _ => rfl).1,
    (newString_then_getStringLength toyMem toyEnvp 0x500 3 Toy.init toyNativeInterface
      fun _ => rfl).2.1⟩

/-- C6, counterexample: on the small runtime a string of `0x10000` code units
does not fit the heap; `_jni_NewString` returns the null reference and
`_jni_GetStringLength` of it returns 0, not `0x10000`. -/
theorem newString_round_trip_fails :
    _jni_NewString toyMem toyEnvp 0x500 0x10000 Toy.init = some (NULL, Toy.init) ∧
    _jni_GetStringLength toyMem toyEnvp NULL Toy.init = some (0, Toy.init) ∧
    (0 : jsize) ≠ 0x10000 :=
  ⟨rfl, rfl, by decide⟩

/-- C7, amended: `_jni_NewGlobalRef` followed by `_jni_IsSameObject` of the
promoted reference and the original yields exactly what the table's
`IsSameObject` slot returns for the reference its `NewGlobalRef` slot returned;
the answer is true if and only if that slot's answer is. -/
theorem newGlobalRef_then_isSameObject (m : Memory σ) (env : Ptr) (obj : jobject) (s : σ)
    (fns : JNINativeInterface σ) (henv : ∀ t, m.loadEnv t env = some fns) :
    _jni_NewGlobalRef m env obj s = some (fns.NewGlobalRef env obj s) ∧
    _jni_IsSameObject m env (fns.NewGlobalRef env obj s).1 obj (fns.NewGlobalRef env obj s).2
      = some (fns.IsSameObject env (fns.NewGlobalRef env obj s).1 obj
          (fns.NewGlobalRef env obj s).2) ∧
    ∀ g s1 b s2, _jni_NewGlobalRef m env obj s = some (g, s1) →
      _jni_IsSameObject m env g obj s1 = some (b, s2) →
      (b ≠ 0 ↔
        (fns.IsSameObject env (fns.NewGlobalRef env obj s).1 obj
          (fns.NewGlobalRef env obj s).2).1 ≠ 0) := by
  refine ⟨by simp [_jni_NewGlobalRef, henv], by simp [_jni_IsSameObject, henv], ?_⟩
  intro g s1 b s2 h1 h2
  simp only [_jni_NewGlobalRef, henv, Option.map_some', Option.some.injEq] at h1
  simp only [_jni_IsSameObject, henv, Option.map_some', Option.some.injEq] at h2
  rw [h1, h2]

/-- Witness of C7, amended: on the freshly started small runtime the promoted
reference `0x100` of object `0x12` is the same object as `0x12`. -/
theorem newGlobalRef_then_isSameObject_witness :
    (∀ t, toyMem.loadEnv t toyEnvp = some toyNativeInterface) ∧
    _jni_NewGlobalRef toyMem toyEnvp 0x12 Toy.init
      = some (0x100, ⟨false, NULL, [], [(0x100, 0x12)], [], 0x101⟩) ∧
    _jni_IsSameObject toyMem toyEnvp 0x100 0x12 ⟨false, NULL, [], [(0x100, 0x12)], [], 0x101⟩
      = some (1, ⟨false, NULL, [], [(0x100, 0x12)], [], 0x101⟩) :=
  ⟨fun _ => rfl,
    (newGlobalRef_then_isSameObject toyMem toyEnvp 0x12 Toy.init toyNativeInterface
      fun _ => rfl).1,
    (newGlobalRef_then_isSameObject toyMem toyEnvp 0x12 Toy.init toyNativeInterface
      fun _ => rfl).2.1⟩

/-- C7, counterexample: with the small runtime's global-reference table full,
promoting object `0x12` returns the null reference, and comparing that with
`0x12` yields false. -/
theorem newGlobalRef_identity_fails :
    _jni_NewGlobalRef toyMem toyEnvp 0x12 Toy.full = some (NULL, Toy.full) ∧
    _jni_IsSameObject toyMem toyEnvp NULL 0x12 Toy.full = some (0, Toy.full) :=
  ⟨rfl, rfl⟩

/-- C8, amended: a second `_jni_AttachCurrentThread` returns exactly the
status, and leaves exactly the state (the word stored through `p_env`
included), that the table's `AttachCurrentThread` slot does when called in the
state the first attach left; it returns success and stores the same handle if
and only if that slot does. -/
theorem attach_twice (m : Memory σ) (vm p_env thr_args p_env2 thr_args2 : Ptr) (s : σ)
    (vfns : JNIInvokeInterface σ) (hvm : ∀ t, m.loadVM t vm = some vfns)
    (read : σ → Ptr → Ptr) :
    _jni_AttachCurrentThread m vm p_env thr_args s
      = some (vfns.AttachCurrentThread vm p_env thr_args s) ∧
    _jni_AttachCurrentThread m vm p_env2 thr_args2
        (vfns.AttachCurrentThread vm p_env thr_args s).2
      = some (vfns.AttachCurrentThread vm p_env2 thr_args2
          (vfns.AttachCurrentThread vm p_env thr_args s).2) ∧
    ∀ r1 s1 r2 s2, _jni_AttachCurrentThread m vm p_env thr_args s = some (r1, s1) →
      _jni_AttachCurrentThread m vm p_env2 thr_args2 s1 = some (r2, s2) →
      ((r2 = 0 ∧ read s2 p_env2 = read s1 p_env) ↔
        ((vfns.AttachCurrentThread vm p_env2 thr_args2
            (vfns.AttachCurrentThread vm p_env thr_args s).2).1 = 0 ∧
         read (vfns.AttachCurrentThread vm p_env2 thr_args2
            (vfns.AttachCurrentThread vm p_env thr_args s).2).2 p_env2
           = read (vfns.AttachCurrentThread vm p_env thr_args s).2 p_env)) := by
  refine ⟨by simp [_jni_AttachCurrentThread, hvm], by simp [_jni_AttachCurrentThread, hvm], ?_⟩
  intro r1 s1 r2 s2 h1 h2
  simp only [_jni_AttachCurrentThread, hvm, Option.map_some', Option.some.injEq] at h1 h2
  rw [h1, h2]

/-- Witness of C8, amended: the small runtime's attach is idempotent, and so
is attaching through the bridge: the second attach returns 0 and stores the
handle the first one stored. -/
theorem attach_twice_witness :
    (∀ t, toyMem.loadVM t toyVM = some toyInvokeInterface) ∧
    _jni_AttachCurrentThread toyMem toyVM 0x600 NULL Toy.init
      = some (0, ⟨true, NULL, [], [], [(0x600, toyEnvp)], 0x100⟩) ∧
    _jni_AttachCurrentThread toyMem toyVM 0x608 NULL
        ⟨true, NULL, [], [], [(0x600, toyEnvp)], 0x100⟩
      = some (0, ⟨true, NULL, [], [], [(0x608, toyEnvp), (0x600, toyEnvp)], 0x100⟩) ∧
    Toy.read ⟨true, NULL, [], [], [(0x608, toyEnvp), (0x600, toyEnvp)], 0x100⟩ 0x608
      = Toy.read ⟨true, NULL, [], [], [(0x600, toyEnvp)], 0x100⟩ 0x600 :=
  ⟨fun _ => rfl,
    (attach_twice toyMem toyVM 0x600 NULL 0x608 NULL Toy.init toyInvokeInterface
      (fun _ => rfl) Toy.read).1,
    (attach_twice toyMem toyVM 0x600 NULL 0x608 NULL Toy.init toyInvokeInterface
      (fun _ => rfl) Toy.read).2.1,
    rfl⟩

/-- C8, counterexample: behind a table whose attach hands out a new handle on
every call, the second `_jni_AttachCurrentThread` of the attached thread stores
`0x101` where the first stored `0x100`. -/
theorem attach_not_idempotent :
    _jni_AttachCurrentThread freshMem toyVM 0x600 NULL Toy.init
      = some (0, ⟨true, NULL, [], [], [(0x600, 0x100)], 0x101⟩) ∧
    _jni_AttachCurrentThread freshMem toyVM 0x608 NULL
        ⟨true, NULL, [], [], [(0x600, 0x100)], 0x101⟩
      = some (0, ⟨true, NULL, [], [], [(0x608, 0x101), (0x600, 0x100)], 0x102⟩) ∧
    Toy.read ⟨true, NULL, [], [], [(0x608, 0x101), (0x600, 0x100)], 0x102⟩ 0x608
      ≠ Toy.read ⟨true, NULL, [], [], [(0x600, 0x100)], 0x101⟩ 0x600 :=
  ⟨rfl, rfl, by decide⟩

/-- C9, amended: each of the seven invocation functions returns exactly what
its slot returned and leaves the state its slot left, and `_jni_ExceptionOccurred`
called immediately afterwards on the same handle returns exactly what the
table's `ExceptionOccurred` slot returns in that state.  The bridge neither
zeroes a result nor sets or clears the pending exception. -/
theorem invocation_then_exceptionOccurred (m : Memory σ) (env target : Ptr)
    (method : jmethodID) (args : Ptr) (s : σ) (fns : JNINativeInterface σ)
    (henv : ∀ t, m.loadEnv t env = some fns) :
    (_jni_CallIntMethodA m env target method args s
        = some (fns.CallIntMethodA env target method args s) ∧
      _jni_ExceptionOccurred m env (fns.CallIntMethodA env target method args s).2
        = some (fns.ExceptionOccurred env (fns.CallIntMethodA env target method args s).2)) ∧
    (_jni_CallBooleanMethodA m env target method args s
        = some (fns.CallBooleanMethodA env target method args s) ∧
      _jni_ExceptionOccurred m env (fns.CallBooleanMethodA env target method args s).2
        = some (fns.ExceptionOccurred env
            (fns.CallBooleanMethodA env target method args s).2)) ∧
    (_jni_CallObjectMethodA m env target method args s
        = some (fns.CallObjectMethodA env target method args s) ∧
      _jni_ExceptionOccurred m env (fns.CallObjectMethodA env target method args s).2
        = some (fns.ExceptionOccurred env
            (fns.CallObjectMethodA env target method args s).2)) ∧
    (_jni_CallStaticIntMethodA m env target method args s
        = some (fns.CallStaticIntMethodA env target method args s) ∧
      _jni_ExceptionOccurred m env (fns.CallStaticIntMethodA env target method args s).2
        = some (fns.ExceptionOccurred env
            (fns.CallStaticIntMethodA env target method args s).2)) ∧
    (_jni_CallStaticObjectMethodA m env target method args s
        = some (fns.CallStaticObjectMethodA env target method args s) ∧
      _jni_ExceptionOccurred m env (fns.CallStaticObjectMethodA env target method args s).2
        = some (fns.ExceptionOccurred env
            (fns.CallStaticObjectMethodA env target method args s).2)) ∧
    (_jni_CallVoidMethodA m env target method args s
        = some (fns.CallVoidMethodA env target method args s) ∧
      _jni_ExceptionOccurred m env (fns.CallVoidMethodA env target method args s)
        = some (fns.ExceptionOccurred env (fns.CallVoidMethodA env target method args s))) ∧
    (_jni_CallStaticVoidMethodA m env target method args s
        = some (fns.CallStaticVoidMethodA env target method args s) ∧
      _jni_ExceptionOccurred m env (fns.CallStaticVoidMethodA env target method args s)
        = some (fns.ExceptionOccurred env
            (fns.CallStaticVoidMethodA env target method args s))) := by
  simp [_jni_CallIntMethodA, _jni_CallBooleanMethodA, _jni_CallObjectMethodA,
    _jni_CallStaticIntMethodA, _jni_CallStaticObjectMethodA, _jni_CallVoidMethodA,
    _jni_CallStaticVoidMethodA, _jni_ExceptionOccurred, henv]

/-- Witness of C9, amended: method 2 of the small runtime throws and yields 0;
through the bridge the call returns 0 and the exception is pending afterwards. -/
theorem invocation_then_exceptionOccurred_witness :
    (∀ t, toyMem.loadEnv t toyEnvp = some toyNativeInterface) ∧
    _jni_CallIntMethodA toyMem toyEnvp 0x10 2 0x30 Toy.init
      = some (0, ⟨false, toyExc, [], [], [], 0x100⟩) ∧
    _jni_ExceptionOccurred toyMem toyEnvp ⟨false, toyExc, [], [], [], 0x100⟩
      = some (toyExc, ⟨false, toyExc, [], [], [], 0x100⟩) :=
  ⟨fun _ => rfl,
    (invocation_then_exceptionOccurred toyMem toyEnvp 0x10 2 0x30 Toy.init toyNativeInterface
      fun _ => rfl).1.1,
    (invocation_then_exceptionOccurred toyMem toyEnvp 0x10 2 0x30 Toy.init toyNativeInterface
      fun _ => rfl).1.2⟩

/-- C9, counterexample: no exception is pending in the freshly started small
runtime; its method 3 throws after it computed 7; `_jni_CallIntMethodA` returns
7, not 0, although the exception is pending immediately afterwards. -/
theorem invocation_result_not_zeroed :
    _jni_ExceptionOccurred toyMem toyEnvp Toy.init = some (NULL, Toy.init) ∧
    _jni_CallIntMethodA toyMem toyEnvp 0x10 3 0x30 Toy.init
      = some (7, ⟨false, toyExc, [], [], [], 0x100⟩) ∧
    _jni_ExceptionOccurred toyMem toyEnvp ⟨false, toyExc, [], [], [], 0x100⟩
      = some (toyExc, ⟨false, toyExc, [], [], [], 0x100⟩) ∧
    toyExc ≠ NULL ∧ (7 : jint) ≠ 0 :=
  ⟨rfl, rfl, rfl, by decide, by decide⟩

end Runtime

end JNIBridge
